import Mathlib

/-!
# Verification of the Pyro4 serialization core (`src/Pyro4/util.py`)

A shallow embedding of the data-marshalling module of Pyro4:
the compression policy (`SerializerBase.serializeData` /
`SerializerBase.__compressdata`), generic object flattening
(`SerializerBase.class_to_dict`), the class reconstruction gate
(`SerializerBase.dict_to_class`), its top-level driver
(`SerializerBase.recreate_classes`) and the remote-traceback merge
(`getPyroTraceback` / `formatRemoteTraceback`).

Python values are embedded as the inductive type `PyVal`; Python dicts
become association lists with first-key-wins lookup and Python-dict
assignment semantics (`dictSet`).  Exceptions raised by the code become
`Except.error` values carrying a `PyError` that records the Python
exception class and its message.  Module attribute tables (`Pyro4.errors`,
`builtins`) and the serializer registry, which live outside this module,
are passed in as an explicit environment `PyEnv`; object allocation is
made observable by threading a fresh object identity (`freshId`) through
`dict_to_class`, so that "constructs a new instance" and "returns the
registered singleton" are distinguishable.
-/

/-- Embedded Python values (the data that crosses the wire). -/
inductive PyVal where
  | none : PyVal
  | bool : Bool → PyVal
  | int : Int → PyVal
  | str : String → PyVal
  | tuple : List PyVal → PyVal
  | list : List PyVal → PyVal
  | dict : List (String × PyVal) → PyVal

/-- Python exceptions that the modelled code can raise. -/
inductive PyError where
  | securityError (msg : String)
  | protocolError (msg : String)
  | serializationError (msg : String)
  | attributeError (msg : String)
  | keyError (msg : String)
  | typeError (msg : String)
  | nameError (msg : String)
  | indexError (msg : String)
deriving DecidableEq

/-- Whether `pat` is a prefix of `l`. -/
def listPrefix {α : Type} [BEq α] : List α → List α → Bool
  | [], _ => true
  | _ :: _, [] => false
  | a :: as, b :: bs => a == b && listPrefix as bs

/-- Whether `pat` occurs as a contiguous sublist of `l`. -/
def listInfix {α : Type} [BEq α] (pat : List α) : List α → Bool
  | [] => pat.isEmpty
  | c :: rest => listPrefix pat (c :: rest) || listInfix pat rest

/-- `pat in s` on Python strings: substring containment. -/
def strContains (s pat : String) : Bool :=
  listInfix pat.data s.data

/-- `s.startswith(pre)` on Python strings. -/
def strStarts (s pre : String) : Bool :=
  listPrefix pre.data s.data

/-- `s[n:]` on a Python string (drop the first `n` characters). -/
def strDrop (s : String) (n : Nat) : String :=
  ⟨s.data.drop n⟩

/-- Python dict key membership `k in d` (association list, first key wins). -/
def containsKey (d : List (String × PyVal)) (k : String) : Bool :=
  d.any (fun p => p.1 == k)

/-- Python dict lookup `d.get(k)` (first binding wins). -/
def lookupD (d : List (String × PyVal)) (k : String) : Option PyVal :=
  (d.find? (fun p => p.1 == k)).map (fun p => p.2)

/-- Python dict assignment `d[k] = v`: replace the binding in place if the
key is present, otherwise append it. -/
def dictSet (d : List (String × PyVal)) (k : String) (v : PyVal) :
    List (String × PyVal) :=
  if containsKey d k then
    d.map (fun p => if p.1 == k then (k, v) else p)
  else
    d ++ [(k, v)]

/-! ## Compression policy (`SerializerBase.__compressdata`, `serializeData`)

Byte strings are embedded as `List Nat`; `zlib.compress` and the abstract
`dumps` of the concrete codec are parameters, since the policy only
inspects lengths. -/

/-- `SerializerBase.__compressdata(data, compress)`:
refuse when compression is off or the payload is under 200 bytes,
otherwise compress and keep the compressed form only when strictly
smaller. -/
def compressdata (zcompress : List Nat → List Nat) (data : List Nat)
    (compress : Bool) : List Nat × Bool :=
  if !compress || data.length < 200 then
    (data, false)
  else
    let compressed := zcompress data
    if compressed.length < data.length then (compressed, true)
    else (data, false)

/-- `SerializerBase.serializeData(data, compress)`: encode with the codec,
then apply the compression policy. -/
def serializeData {α : Type} (dumps : α → List Nat)
    (zcompress : List Nat → List Nat) (data : α) (compress : Bool) :
    List Nat × Bool :=
  compressdata zcompress (dumps data) compress

/-! ## The reconstruction gate (`SerializerBase.dict_to_class`)

The gate consults the `Pyro4.errors` and `builtins` modules, the
`all_exceptions` table assembled at module load, and the `serializers`
registry.  None of those live inside the function, so they are passed in
as an explicit environment.  `getattr` on a module is a lookup in its
attribute table; an attribute can be an exception class, a class that is
not an exception, or not a class at all (`issubclass` then raises
`TypeError`, exactly as in Python). -/

/-- What a module attribute is, as far as `issubclass(-, E)` checks care. -/
inductive AttrKind where
  | excClass   -- a class that passes the issubclass test of its branch
  | otherClass -- a class that fails the issubclass test
  | nonClass   -- not a class: issubclass raises TypeError
deriving DecidableEq

/-- A serializer object: its class name (`type(s).__name__`) plus an object
identity, so that a freshly constructed instance is distinguishable from a
registered singleton. -/
structure SerializerObj where
  clsName : String
  objId : Nat
deriving DecidableEq

/-- An exception instance: its type (module-qualified) and its `args`. -/
structure ExcInstance where
  module : String
  clsName : String
  args : List PyVal

/-- The values `dict_to_class` can return. -/
inductive PyObj where
  | uriObj (state : PyVal)
  | proxyObj (uri oneway timeout : PyVal)
  | daemonObj
  | serializerObj (s : SerializerObj)
  | excObj (e : ExcInstance)

/-- The module-level environment `dict_to_class` reads:
attribute tables of `Pyro4.errors` and `builtins`, the `all_exceptions`
name table (name ↦ module of the exception type it maps to), and the
values of the `serializers` registry in iteration order. -/
structure PyEnv where
  pyroErrorAttrs : List (String × AttrKind)
  builtinAttrs : List (String × AttrKind)
  allExceptions : List (String × String)
  serializers : List SerializerObj

/-- `getattr(module, name)` over an attribute table. -/
def getattrMod (attrs : List (String × AttrKind)) (name : String) :
    Option AttrKind :=
  (attrs.find? (fun p => p.1 == name)).map (fun p => p.2)

/-- Python `f(*v)`: the argument unpacking of `errortype(*data["args"])`.
Tuples and lists yield their elements, strings their characters, dicts
their keys; anything else is not iterable (`TypeError`). -/
def starArgs : PyVal → Except PyError (List PyVal)
  | .tuple l => .ok l
  | .list l => .ok l
  | .str s => .ok (s.data.map (fun c => .str (String.mk [c])))
  | .dict d => .ok (d.map (fun p => .str p.1))
  | _ => .error (.typeError "argument after * must be an iterable")

/-- `data["args"]` followed by `*`-unpacking: `KeyError` when absent. -/
def getArgsList (data : List (String × PyVal)) :
    Except PyError (List PyVal) :=
  match lookupD data "args" with
  | none => .error (.keyError "args")
  | some v => starArgs v

/-- The code shared by every fall-through of the prefix dispatch chain:
scan `serializers.values()` for an instance whose class name equals the
tag, otherwise fail closed with `ProtocolError`. -/
def serializerScan (env : PyEnv) (classname : String) :
    Except PyError PyObj :=
  match env.serializers.find? (fun s => s.clsName == classname) with
  | some s => .ok (.serializerObj s)
  | none =>
      .error (.protocolError ("unsupported serialized class: " ++ classname))

/-- `Pyro4.core.Proxy` reconstruction from `data["state"]`.
Modelled from the spec: `Pyro4.core` is outside this module; the spec says
the proxy is rebuilt by allocating an empty instance and feeding it
`(uri, oneway set, timeout)` through its state-restore path, so the model
stores the three state components. Indexing a non-sequence or a too-short
state fails as in Python. -/
def proxyFromState : PyVal → Except PyError PyObj
  | .tuple (s0 :: s1 :: s2 :: _) => .ok (.proxyObj s0 s1 s2)
  | .list (s0 :: s1 :: s2 :: _) => .ok (.proxyObj s0 s1 s2)
  | .tuple _ => .error (.indexError "tuple index out of range")
  | .list _ => .error (.indexError "list index out of range")
  | _ => .error (.typeError "object is not subscriptable")

/-- The dispatch chain of `dict_to_class` once the classname has been
extracted.  Mirrors the source line by line: the double-underscore check
first, then the `Pyro4.core.` / `Pyro4.util.` / `Pyro4.errors.` /
`builtins.` / `exceptions.` prefix chain, then the `all_exceptions` table,
and on every fall-through the serializer scan followed by the closing
`ProtocolError`.  The `Pyro4.util.` branch calls the class constructors,
so it yields objects carrying the fresh identity `freshId`; the
`XmlrpcSerializer` arm refers to a class this module never defines, so it
raises `NameError`, and (on Python 3) so does the `exceptions.` branch,
whose module is only imported on Python 2. -/
def dict_to_class_tagged (env : PyEnv) (freshId : Nat)
    (data : List (String × PyVal)) (classname : String) :
    Except PyError PyObj :=
  if strContains classname "__" then
    .error (.securityError
      "refuse to deserialize types with double underscores in their name")
  else if strStarts classname "Pyro4.core." then
    if classname == "Pyro4.core.URI" then
      match lookupD data "state" with
      | Option.none => .error (.keyError "state")
      | some st => .ok (.uriObj st)
    else if classname == "Pyro4.core.Proxy" then
      match lookupD data "state" with
      | Option.none => .error (.keyError "state")
      | some st => proxyFromState st
    else if classname == "Pyro4.core.Daemon" then
      .ok .daemonObj
    else serializerScan env classname
  else if strStarts classname "Pyro4.util." then
    if classname == "Pyro4.util.PickleSerializer" then
      .ok (.serializerObj ⟨"PickleSerializer", freshId⟩)
    else if classname == "Pyro4.util.MarshalSerializer" then
      .ok (.serializerObj ⟨"MarshalSerializer", freshId⟩)
    else if classname == "Pyro4.util.JsonSerializer" then
      .ok (.serializerObj ⟨"JsonSerializer", freshId⟩)
    else if classname == "Pyro4.util.SerpentSerializer" then
      .ok (.serializerObj ⟨"SerpentSerializer", freshId⟩)
    else if classname == "Pyro4.util.XmlrpcSerializer" then
      .error (.nameError "name XmlrpcSerializer is not defined")
    else serializerScan env classname
  else if strStarts classname "Pyro4.errors." then
    match getattrMod env.pyroErrorAttrs (strDrop classname 13) with
    | Option.none => .error (.attributeError (strDrop classname 13))
    | some AttrKind.excClass =>
        (getArgsList data).map
          (fun as => .excObj ⟨"Pyro4.errors", strDrop classname 13, as⟩)
    | some AttrKind.otherClass => serializerScan env classname
    | some AttrKind.nonClass =>
        .error (.typeError "issubclass() arg 1 must be a class")
  else if strStarts classname "builtins." then
    match getattrMod env.builtinAttrs (strDrop classname 9) with
    | Option.none => .error (.attributeError (strDrop classname 9))
    | some AttrKind.excClass =>
        (getArgsList data).map
          (fun as => .excObj ⟨"builtins", strDrop classname 9, as⟩)
    | some AttrKind.otherClass => serializerScan env classname
    | some AttrKind.nonClass =>
        .error (.typeError "issubclass() arg 1 must be a class")
  else if strStarts classname "exceptions." then
    .error (.nameError "name exceptions is not defined")
  else
    match env.allExceptions.find? (fun p => p.1 == classname) with
    | some p =>
        (getArgsList data).map (fun as => .excObj ⟨p.2, classname, as⟩)
    | Option.none => serializerScan env classname

/-- Python `"__" in container` for a list/tuple-valued type tag: element
membership, true exactly when some element equals the string. -/
def containerHasDunder (l : List PyVal) : Bool :=
  l.any (fun v => match v with | .str s => s == "__" | _ => false)

/-- `SerializerBase.dict_to_class(data)`: read the type tag with
`data.get("__class__", "<unknown>")` and run the dispatch chain.  A
non-string tag behaves as in Python: `"__" in tag` is membership for
containers (possibly raising the SecurityError) and `TypeError` for
non-iterables, and any surviving non-string tag fails at
`classname.startswith` with `AttributeError`. -/
def dict_to_class (env : PyEnv) (freshId : Nat)
    (data : List (String × PyVal)) : Except PyError PyObj :=
  match lookupD data "__class__" with
  | some (.str c) => dict_to_class_tagged env freshId data c
  | some (.tuple l) =>
      if containerHasDunder l then
        .error (.securityError
          "refuse to deserialize types with double underscores in their name")
      else .error (.attributeError "startswith")
  | some (.list l) =>
      if containerHasDunder l then
        .error (.securityError
          "refuse to deserialize types with double underscores in their name")
      else .error (.attributeError "startswith")
  | some (.dict d) =>
      if containsKey d "__" then
        .error (.securityError
          "refuse to deserialize types with double underscores in their name")
      else .error (.attributeError "startswith")
  | some _ => .error (.typeError "argument of type is not iterable")
  | Option.none => dict_to_class_tagged env freshId data "<unknown>"

/-- The result of `recreate_classes`: either the literal unchanged or a
rebuilt object from the gate. -/
inductive RecOut where
  | plain (v : PyVal)
  | rebuilt (o : PyObj)

/-- `SerializerBase.recreate_classes(literal)`: enter the gate exactly
when the literal itself is a dict carrying the `"__class__"` key; every
other value — including containers with tagged dicts nested inside —
is returned unchanged. -/
def recreate_classes (env : PyEnv) (freshId : Nat) (literal : PyVal) :
    Except PyError RecOut :=
  match literal with
  | .dict d =>
      if containsKey d "__class__" then
        (dict_to_class env freshId d).map RecOut.rebuilt
      else .ok (.plain (.dict d))
  | v => .ok (.plain v)

/-! ## Object flattening (`SerializerBase.class_to_dict`)

A Python object, as far as the flattening chain observes it: its type
(module-qualified class name), the set of classes it is an instance of
(for the converter-registry `isinstance` scan, classes being identified
by numeric ids), whether it is an `Exception` instance and its `args`,
the result of its `__getstate__` hook if it has one, its `vars()` dict if
it has one (`None` models `vars` raising `TypeError`), and its
`__slots__` names with their values if it declares them. -/
structure PyObjRepr where
  module : String
  clsName : String
  instanceOf : List Nat
  isException : Bool
  args : List PyVal
  getstate : Option PyVal
  varsDict : Option (List (String × PyVal))
  slots : Option (List (String × PyVal))

/-- A converter registered with `register_class_to_dict`. -/
abbrev Converter : Type := PyObjRepr → PyVal

/-- The `__custom_class_to_dict_registry` class dict: class id ↦
converter, in insertion order (Python dicts preserve it). -/
abbrev ConvRegistry : Type := List (Nat × Converter)

/-- `SerializerBase.register_class_to_dict(clazz, converter)`: dict
assignment — re-registering a class keeps its original position. -/
def register_class_to_dict (reg : ConvRegistry) (clazz : Nat)
    (conv : Converter) : ConvRegistry :=
  if reg.any (fun p => p.1 == clazz) then
    reg.map (fun p => if p.1 == clazz then (clazz, conv) else p)
  else reg ++ [(clazz, conv)]

/-- `SerializerBase.unregister_class_to_dict(clazz)`. -/
def unregister_class_to_dict (reg : ConvRegistry) (clazz : Nat) :
    ConvRegistry :=
  reg.filter (fun p => p.1 != clazz)

/-- `str(type(obj))`, as used in the failure message. -/
def typeStr (obj : PyObjRepr) : String :=
  "<class \x27" ++ obj.module ++ "." ++ obj.clsName ++ "\x27>"

/-- The module-qualified type tag `type(obj).__module__ + "." +
type(obj).__name__`. -/
def typeTag (obj : PyObjRepr) : String :=
  obj.module ++ "." ++ obj.clsName

/-- `obj._pyroDaemon = None` after a successful `hasattr` check: the
attribute lives in the instance dict (or in a slot for slotted classes). -/
def nullPyroDaemon (obj : PyObjRepr) : PyObjRepr :=
  match obj.varsDict with
  | some d =>
      if containsKey d "_pyroDaemon" then
        { obj with varsDict := some (dictSet d "_pyroDaemon" .none) }
      else obj
  | Option.none =>
      match obj.slots with
      | some sl =>
          if containsKey sl "_pyroDaemon" then
            { obj with slots := some (dictSet sl "_pyroDaemon" .none) }
          else obj
      | Option.none => obj

/-- The `vars()` / `__slots__` tail of the flattening chain. -/
def varsOrSlots (obj : PyObjRepr) : Except PyError PyVal :=
  match obj.varsDict with
  | some d => .ok (.dict (dictSet d "__class__" (.str (typeTag obj))))
  | Option.none =>
      match obj.slots with
      | some sl =>
          .ok (.dict (dictSet
            (sl.foldl (fun acc p => dictSet acc p.1 p.2) [])
            "__class__" (.str (typeTag obj))))
      | Option.none =>
          .error (.protocolError ("don\x27t know how to serialize class "
            ++ typeStr obj
            ++ ". Give it vars() or an appropriate __getstate__"))

/-- `SerializerBase.class_to_dict(obj)`: scan the converter registry in
registration order and let the first `isinstance` match win; otherwise
null out a `_pyroDaemon` back-reference, special-case exceptions, then
fall through `__getstate__` (used only when it returns a dict, which is
passed through verbatim), `vars()`, `__slots__`, and finally fail —
with a `ProtocolError` in this code. -/
def class_to_dict (reg : ConvRegistry) (obj : PyObjRepr) :
    Except PyError PyVal :=
  match reg.find? (fun p => obj.instanceOf.contains p.1) with
  | some p => .ok (p.2 obj)
  | Option.none =>
    let obj := nullPyroDaemon obj
    if obj.isException then
      .ok (.dict [("args", .tuple obj.args),
                  ("__class__", .str (typeTag obj))])
    else
      match obj.getstate with
      | some (.dict d) => .ok (.dict d)
      | some _ => varsOrSlots obj
      | Option.none => varsOrSlots obj

/-! ## Remote traceback merging (`getPyroTraceback`)

The local traceback (built by `formatTraceback` from the live interpreter
state) is opaque to the merge logic, so it is a parameter; the remote
fragment is the `_pyroTraceback` attribute of the exception, `Option`
because the attribute may be absent. -/

/-- Python `line.split("\n")` on character lists. -/
def splitNL : List Char → List (List Char)
  | [] => [[]]
  | c :: cs =>
      match splitNL cs with
      | [] => [[]]
      | h :: t => if c == '\n' then [] :: h :: t else (c :: h) :: t

/-- The begin marker of the remote section. -/
def remoteTbHeader : String :=
  " +--- This exception occured remotely (Pyro) - Remote traceback:"

/-- The end marker of the remote section. -/
def remoteTbFooter : String :=
  "\n +--- End of remote traceback\n"

/-- `line[:-1] if line.endswith("\n") else line`, on the characters. -/
def stripNL (line : String) : List Char :=
  if line.data.getLast? == some '\n' then line.data.dropLast else line.data

/-- One fragment line of `formatRemoteTraceback`'s loop body: strip one
trailing newline, split on embedded newlines, and emit each piece behind
a `"\n | "` continuation prefix (two list elements per piece, as the
source appends them separately). -/
def remoteTbLine (line : String) : List String :=
  (splitNL (stripNL line)).flatMap (fun piece => ["\n | ", String.mk piece])

/-- `getPyroTraceback.formatRemoteTraceback(remote_tb_lines)`. -/
def formatRemoteTraceback (remote_tb_lines : List String) : List String :=
  [remoteTbHeader] ++ remote_tb_lines.flatMap remoteTbLine ++ [remoteTbFooter]

/-- `getPyroTraceback`, after the local traceback has been formatted:
`remote_tb = getattr(ex_value, "_pyroTraceback", None)` followed by a
truthiness test, so both an absent attribute and an attached empty list
yield the local traceback alone. -/
def getPyroTraceback (local_tb : List String)
    (remote_tb : Option (List String)) : List String :=
  match remote_tb with
  | some tb => if tb.isEmpty then local_tb
               else local_tb ++ formatRemoteTraceback tb
  | Option.none => local_tb

/-! ## Concrete default environment

The modules the gate consults are outside this file's source.
Modelled from the spec: the reconstruction allow-list is "assembled at
startup from the language's built-in exception hierarchy plus the
framework's own error hierarchy", and the codec registry holds "whichever
backend libraries are present"; the tables below instantiate that with
the framework error classes, a sample of builtin exception types plus
non-exception builtins, and the four codec singletons registered at
module load (each with its own object identity). -/

/-- Modelled from the spec: attribute table of the framework error module
`Pyro4.errors` (every listed error class derives from `PyroError`). -/
def pyroErrorsAttrsD : List (String × AttrKind) :=
  [("PyroError", .excClass), ("CommunicationError", .excClass),
   ("ConnectionClosedError", .excClass), ("TimeoutError", .excClass),
   ("ProtocolError", .excClass), ("NamingError", .excClass),
   ("DaemonError", .excClass), ("SecurityError", .excClass)]

/-- Modelled from the spec: a sample of the `builtins` module — exception
classes, a non-exception class, and a non-class attribute. -/
def builtinAttrsD : List (String × AttrKind) :=
  [("Exception", .excClass), ("ValueError", .excClass),
   ("TypeError", .excClass), ("KeyError", .excClass),
   ("ZeroDivisionError", .excClass), ("RuntimeError", .excClass),
   ("OSError", .excClass), ("StopIteration", .excClass),
   ("int", .otherClass), ("len", .nonClass)]

/-- Modelled from the spec: the `all_exceptions` table built at module
load — builtin exception names plus framework error names, each mapped
to the module of the exception type it denotes. -/
def allExceptionsD : List (String × String) :=
  [("Exception", "builtins"), ("ValueError", "builtins"),
   ("TypeError", "builtins"), ("KeyError", "builtins"),
   ("ZeroDivisionError", "builtins"), ("RuntimeError", "builtins"),
   ("OSError", "builtins"), ("StopIteration", "builtins"),
   ("PyroError", "Pyro4.errors"), ("CommunicationError", "Pyro4.errors"),
   ("ConnectionClosedError", "Pyro4.errors"), ("TimeoutError", "Pyro4.errors"),
   ("ProtocolError", "Pyro4.errors"), ("NamingError", "Pyro4.errors"),
   ("DaemonError", "Pyro4.errors"), ("SecurityError", "Pyro4.errors")]

/-- The `serializers` registry populated at module load: the four codec
singletons in registration order, with distinct object identities. -/
def serializersD : List SerializerObj :=
  [⟨"PickleSerializer", 0⟩, ⟨"MarshalSerializer", 1⟩,
   ⟨"JsonSerializer", 2⟩, ⟨"SerpentSerializer", 3⟩]

/-- The default environment at module load. -/
def envD : PyEnv :=
  ⟨pyroErrorsAttrsD, builtinAttrsD, allExceptionsD, serializersD⟩

/-- Whether a gate result is the `ProtocolError` failure. -/
def gateIsProtocolError : Except PyError PyObj → Bool
  | .error (.protocolError _) => true
  | _ => false

/-- Whether a flattening result is a `SerializationError` failure. -/
def flatIsSerializationError : Except PyError PyVal → Bool
  | .error (.serializationError _) => true
  | _ => false

/-! ## Helper lemmas -/

theorem listPrefix_append_self {α : Type} [BEq α] [LawfulBEq α]
    (p t : List α) : listPrefix p (p ++ t) = true := by
  induction p with
  | nil => rfl
  | cons c cs ih => simp [listPrefix, ih]

theorem listPrefix_append_false {α : Type} [BEq α] [LawfulBEq α]
    (p a b : List α)
    (h1 : listPrefix p a = false) (h2 : listPrefix a p = false) :
    listPrefix p (a ++ b) = false := by
  induction a generalizing p with
  | nil => simp [listPrefix] at h2
  | cons x xs ih =>
      cases p with
      | nil => simp [listPrefix] at h1
      | cons c cs =>
          simp only [listPrefix, Bool.and_eq_false_iff] at h1 h2
          rcases h1 with h1 | h1
          · simp [listPrefix, h1]
          · rcases h2 with h2 | h2
            · cases hcx : c == x with
              | false => simp [listPrefix, hcx]
              | true =>
                  rw [beq_iff_eq] at hcx
                  subst hcx
                  simp at h2
            · cases hcx : c == x with
              | false => simp [listPrefix, hcx]
              | true => simp [listPrefix, List.cons_append, hcx, ih cs h1 h2]

theorem listInfix_of_parts {α : Type} [BEq α] [LawfulBEq α]
    (p l : List α) (h : ∃ s t, l = s ++ (p ++ t)) :
    listInfix p l = true := by
  obtain ⟨s, t, rfl⟩ := h
  induction s with
  | nil =>
      cases hp : p ++ t with
      | nil =>
          have : p = [] := by
            cases p with
            | nil => rfl
            | cons a as => simp at hp
          simp [this, listInfix]
      | cons c rest =>
          simp only [List.nil_append, hp, listInfix]
          rw [← hp, listPrefix_append_self]
          simp
  | cons x xs ih =>
      simp only [List.cons_append, listInfix, List.append_eq, ih,
        Bool.or_true]

theorem nullPyroDaemon_module (obj : PyObjRepr) :
    (nullPyroDaemon obj).module = obj.module := by
  unfold nullPyroDaemon
  repeat' split
  all_goals rfl

theorem nullPyroDaemon_clsName (obj : PyObjRepr) :
    (nullPyroDaemon obj).clsName = obj.clsName := by
  unfold nullPyroDaemon
  repeat' split
  all_goals rfl

theorem nullPyroDaemon_isException (obj : PyObjRepr) :
    (nullPyroDaemon obj).isException = obj.isException := by
  unfold nullPyroDaemon
  repeat' split
  all_goals rfl

theorem nullPyroDaemon_args (obj : PyObjRepr) :
    (nullPyroDaemon obj).args = obj.args := by
  unfold nullPyroDaemon
  repeat' split
  all_goals rfl

theorem nullPyroDaemon_getstate (obj : PyObjRepr) :
    (nullPyroDaemon obj).getstate = obj.getstate := by
  unfold nullPyroDaemon
  repeat' split
  all_goals rfl

theorem typeTag_nullPyroDaemon (obj : PyObjRepr) :
    typeTag (nullPyroDaemon obj) = typeTag obj := by
  unfold typeTag
  rw [nullPyroDaemon_module, nullPyroDaemon_clsName]

theorem typeStr_nullPyroDaemon (obj : PyObjRepr) :
    typeStr (nullPyroDaemon obj) = typeStr obj := by
  unfold typeStr
  rw [nullPyroDaemon_module, nullPyroDaemon_clsName]

/-! ## Claims -/

/-- C1: for every attribute mapping whose `"__class__"` tag is a string
containing the substring `"__"`, `dict_to_class` fails with
`SecurityError`, for every environment (allow-list and codec registry
contents) and before any other dispatch step: no other branch of the
chain is reached. -/
theorem C1_dunder_tag_always_security_error (env : PyEnv) (freshId : Nat)
    (data : List (String × PyVal)) (c : String)
    (htag : lookupD data "__class__" = some (.str c))
    (hdd : strContains c "__" = true) :
    dict_to_class env freshId data =
      .error (.securityError
        "refuse to deserialize types with double underscores in their name") := by
  unfold dict_to_class
  rw [htag]
  unfold dict_to_class_tagged
  simp [hdd]

/-- Witness for C1 at the spec's own example tag `"foo__bar"`. -/
theorem C1_witness :
    lookupD [("__class__", PyVal.str "foo__bar")] "__class__"
        = some (.str "foo__bar")
    ∧ strContains "foo__bar" "__" = true
    ∧ dict_to_class envD 7 [("__class__", PyVal.str "foo__bar")] =
        .error (.securityError
          "refuse to deserialize types with double underscores in their name") :=
  ⟨rfl, rfl,
    C1_dunder_tag_always_security_error envD 7 _ "foo__bar" rfl rfl⟩

/-- C4: `serializeData` compresses exactly when compression is requested,
the encoded payload is at least 200 bytes long, and the compressed form
is strictly shorter; in every other case the original bytes are returned
with the compressed flag false.  The equation fully characterizes the
function, so in particular any payload under 200 bytes is returned
uncompressed. -/
theorem C4_compression_policy {α : Type} (dumps : α → List Nat)
    (zcompress : List Nat → List Nat) (v : α) (c : Bool) :
    serializeData dumps zcompress v c =
      if c = true ∧ 200 ≤ (dumps v).length
          ∧ (zcompress (dumps v)).length < (dumps v).length
      then (zcompress (dumps v), true)
      else (dumps v, false) := by
  unfold serializeData compressdata
  cases c with
  | false => simp
  | true =>
      by_cases h2 : (dumps v).length < 200
      · simp [h2, Nat.not_le_of_lt h2]
      · by_cases h3 : (zcompress (dumps v)).length < (dumps v).length
        · simp [h2, h3, Nat.le_of_not_lt h2]
        · simp [h2, h3]

/-- An object with no registered converter, not an exception, no
`__getstate__`, no attribute dict and no `__slots__`. -/
def plainObjC : PyObjRepr :=
  ⟨"mymodule", "Thing", [5], false, [], Option.none, Option.none,
   Option.none⟩

/-- Counterexample to C5: on the flattening fall-through the code raises
`ProtocolError`, not the `SerializationError` the claim names. -/
theorem C5_counterexample :
    class_to_dict [] plainObjC =
      .error (.protocolError
        "don\x27t know how to serialize class <class \x27mymodule.Thing\x27>. Give it vars() or an appropriate __getstate__")
    ∧ flatIsSerializationError (class_to_dict [] plainObjC) = false :=
  ⟨rfl, rfl⟩

/-- C5 (amended): with no matching converter, not an exception, no
`__getstate__` returning a mapping, no attribute dict and no `__slots__`,
`class_to_dict` fails — but with a `ProtocolError` (naming the offending
type and demanding `vars()` or a `__getstate__`), not a
`SerializationError`. -/
theorem C5_amended_fallthrough_error (reg : ConvRegistry) (obj : PyObjRepr)
    (hconv : reg.find? (fun p => obj.instanceOf.contains p.1) = Option.none)
    (hexc : obj.isException = false)
    (hgs : ∀ d, obj.getstate ≠ some (.dict d))
    (hvars : obj.varsDict = Option.none)
    (hslots : obj.slots = Option.none) :
    class_to_dict reg obj =
      .error (.protocolError ("don\x27t know how to serialize class "
        ++ typeStr obj ++ ". Give it vars() or an appropriate __getstate__")) := by
  have hnp : nullPyroDaemon obj = obj := by
    simp [nullPyroDaemon, hvars, hslots]
  unfold class_to_dict
  rw [hconv]
  simp only [hnp, hexc, Bool.false_eq_true, if_false]
  cases hg : obj.getstate with
  | none => simp [varsOrSlots, hvars, hslots]
  | some v =>
      cases v
      case dict d => exact absurd hg (hgs d)
      all_goals simp [varsOrSlots, hvars, hslots]

/-- A second unflattenable object, for the C5 witness. -/
def widgetObjC : PyObjRepr :=
  ⟨"app", "Widget", [], false, [], Option.none, Option.none, Option.none⟩

/-- Witness for C5 (amended) at a concrete unflattenable object. -/
theorem C5_witness :
    class_to_dict [] widgetObjC =
      .error (.protocolError
        "don\x27t know how to serialize class <class \x27app.Widget\x27>. Give it vars() or an appropriate __getstate__") :=
  C5_amended_fallthrough_error [] widgetObjC rfl rfl
    (fun _ h => Option.noConfusion h) rfl rfl

/-- C8: `class_to_dict` consults the converter registry before any other
flattening path (the object may even be an exception) and the scan is in
registration order: the first registered entry whose class the object is
an instance of wins, regardless of what follows it in the registry — in
particular a later, more specific match is ignored. -/
theorem C8_converter_registration_order (r₁ r₂ : ConvRegistry)
    (clazz : Nat) (conv : Converter) (obj : PyObjRepr)
    (h₁ : ∀ p ∈ r₁, obj.instanceOf.contains p.1 = false)
    (hc : obj.instanceOf.contains clazz = true) :
    class_to_dict (r₁ ++ (clazz, conv) :: r₂) obj = .ok (conv obj) := by
  unfold class_to_dict
  have h1none : r₁.find? (fun p => obj.instanceOf.contains p.1)
      = Option.none := by
    apply List.find?_eq_none.mpr
    intro p hp
    simpa using h₁ p hp
  have hc' : clazz ∈ obj.instanceOf := by simpa using hc
  rw [List.find?_append, h1none]
  simp [List.find?_cons, hc']

/-- Converters and a two-class object (instance of base class `1` and
derived class `2`) for the C8 witness. -/
def convA : Converter := fun _ => .str "A"

def convB : Converter := fun _ => .str "B"

def convC : Converter := fun _ => .str "C"

def derivedObjC : PyObjRepr :=
  ⟨"app", "DerivedError", [1, 2], true, [.str "boom"], Option.none,
   some [], Option.none⟩

/-- Witness for C8: the base-class converter registered earlier wins over
the more specific derived-class converter registered later, even though
the object is an exception. -/
theorem C8_witness :
    class_to_dict [(3, convC), (1, convA), (2, convB)] derivedObjC
      = .ok (.str "A") :=
  C8_converter_registration_order [(3, convC)] [(2, convB)] 1 convA
    derivedObjC
    (by intro p hp; rw [List.mem_singleton.mp hp]; rfl) rfl

/-- Counterexample to C2: the tag `"Pyro4.errors.Nonexistent"` contains no
double underscore and matches no allow-listed path, yet the gate raises
`AttributeError` (the failed `getattr` on the error module), not
`ProtocolError`. -/
theorem C2_counterexample :
    dict_to_class envD 0
        [("__class__", PyVal.str "Pyro4.errors.Nonexistent"),
         ("args", PyVal.tuple [])] =
      .error (.attributeError "Nonexistent")
    ∧ gateIsProtocolError (dict_to_class envD 0
        [("__class__", PyVal.str "Pyro4.errors.Nonexistent"),
         ("args", PyVal.tuple [])]) = false :=
  ⟨rfl, rfl⟩

/-- C2 (amended): a type tag without a double underscore that matches no
allow-listed path and does not start with one of the module prefixes
`Pyro4.errors.` / `builtins.` / `exceptions.` makes `dict_to_class` raise
`ProtocolError` naming the tag; no value is ever returned.  (A tag with
one of those module prefixes whose remainder fails attribute resolution
or the subclass check instead escapes with the resolution error, e.g.
`AttributeError`.) -/
theorem C2_amended_unknown_tag_protocol_error (env : PyEnv) (freshId : Nat)
    (data : List (String × PyVal)) (c : String)
    (htag : lookupD data "__class__" = some (.str c))
    (hdd : strContains c "__" = false)
    (hpe : strStarts c "Pyro4.errors." = false)
    (hbi : strStarts c "builtins." = false)
    (hex : strStarts c "exceptions." = false)
    (hfixed : c ∉ ["Pyro4.core.URI", "Pyro4.core.Proxy", "Pyro4.core.Daemon",
      "Pyro4.util.PickleSerializer", "Pyro4.util.MarshalSerializer",
      "Pyro4.util.JsonSerializer", "Pyro4.util.SerpentSerializer",
      "Pyro4.util.XmlrpcSerializer"])
    (hae : env.allExceptions.find? (fun p => p.1 == c) = Option.none)
    (hser : env.serializers.find? (fun s => s.clsName == c) = Option.none) :
    dict_to_class env freshId data =
      .error (.protocolError ("unsupported serialized class: " ++ c)) := by
  simp only [List.mem_cons, List.not_mem_nil, or_false, not_or] at hfixed
  obtain ⟨h1, h2, h3, h4, h5, h6, h7, h8⟩ := hfixed
  have e1 : (c == "Pyro4.core.URI") = false := beq_eq_false_iff_ne.mpr h1
  have e2 : (c == "Pyro4.core.Proxy") = false := beq_eq_false_iff_ne.mpr h2
  have e3 : (c == "Pyro4.core.Daemon") = false := beq_eq_false_iff_ne.mpr h3
  have e4 : (c == "Pyro4.util.PickleSerializer") = false :=
    beq_eq_false_iff_ne.mpr h4
  have e5 : (c == "Pyro4.util.MarshalSerializer") = false :=
    beq_eq_false_iff_ne.mpr h5
  have e6 : (c == "Pyro4.util.JsonSerializer") = false :=
    beq_eq_false_iff_ne.mpr h6
  have e7 : (c == "Pyro4.util.SerpentSerializer") = false :=
    beq_eq_false_iff_ne.mpr h7
  have e8 : (c == "Pyro4.util.XmlrpcSerializer") = false :=
    beq_eq_false_iff_ne.mpr h8
  have hred : dict_to_class env freshId data
      = dict_to_class_tagged env freshId data c := by
    unfold dict_to_class
    rw [htag]
  rw [hred]
  unfold dict_to_class_tagged serializerScan
  simp [hdd, hpe, hbi, hex, e1, e2, e3, e4, e5, e6, e7, e8, hae, hser]

/-- Witness for C2 (amended) at the spec's example tag
`"completely.unknown.Type"` in the default environment. -/
theorem C2_witness :
    dict_to_class envD 0
        [("__class__", PyVal.str "completely.unknown.Type"),
         ("state", PyVal.dict [])] =
      .error (.protocolError
        "unsupported serialized class: completely.unknown.Type") :=
  C2_amended_unknown_tag_protocol_error envD 0
    [("__class__", PyVal.str "completely.unknown.Type"),
     ("state", PyVal.dict [])]
    "completely.unknown.Type" rfl rfl rfl rfl rfl (by decide) rfl rfl

/-- Reducing `dict_to_class` to the dispatch chain once the `"__class__"`
entry is known to be the string `c`. -/
theorem dict_to_class_str_tag (env : PyEnv) (freshId : Nat)
    (data : List (String × PyVal)) (c : String)
    (htag : lookupD data "__class__" = some (.str c)) :
    dict_to_class env freshId data
      = dict_to_class_tagged env freshId data c := by
  unfold dict_to_class
  rw [htag]

/-- Counterexample to C7: for the tag `"Pyro4.util.MarshalSerializer"`
the gate calls the class constructor, returning a fresh object (identity
99, the allocation identity of the call) that is not any of the singleton
instances held in the codec registry. -/
theorem C7_counterexample :
    dict_to_class envD 99
        [("__class__", PyVal.str "Pyro4.util.MarshalSerializer")]
      = .ok (.serializerObj ⟨"MarshalSerializer", 99⟩)
    ∧ (⟨"MarshalSerializer", 99⟩ : SerializerObj) ∉ envD.serializers
    ∧ (⟨"MarshalSerializer", 1⟩ : SerializerObj) ∈ envD.serializers :=
  ⟨rfl, by decide, by decide⟩

/-- C7 (amended): a `Pyro4.util.`-qualified codec tag makes the gate
construct and return a new instance of that codec class (carrying the
fresh allocation identity, not any registry entry); the registry
singleton is returned only by the later scan, when the tag equals the
bare class name of a registered codec instance. -/
theorem C7_codec_tag_names_fresh_or_singleton (env : PyEnv) (freshId : Nat)
    (data : List (String × PyVal)) :
    (lookupD data "__class__"
        = some (.str "Pyro4.util.MarshalSerializer") →
      dict_to_class env freshId data
        = .ok (.serializerObj ⟨"MarshalSerializer", freshId⟩))
  ∧ (lookupD data "__class__"
        = some (.str "Pyro4.util.JsonSerializer") →
      dict_to_class env freshId data
        = .ok (.serializerObj ⟨"JsonSerializer", freshId⟩))
  ∧ (lookupD data "__class__"
        = some (.str "Pyro4.util.PickleSerializer") →
      dict_to_class env freshId data
        = .ok (.serializerObj ⟨"PickleSerializer", freshId⟩))
  ∧ (lookupD data "__class__"
        = some (.str "Pyro4.util.SerpentSerializer") →
      dict_to_class env freshId data
        = .ok (.serializerObj ⟨"SerpentSerializer", freshId⟩))
  ∧ (∀ c s, lookupD data "__class__" = some (.str c) →
      strContains c "__" = false →
      strStarts c "Pyro4.core." = false →
      strStarts c "Pyro4.util." = false →
      strStarts c "Pyro4.errors." = false →
      strStarts c "builtins." = false →
      strStarts c "exceptions." = false →
      env.allExceptions.find? (fun p => p.1 == c) = Option.none →
      env.serializers.find? (fun t => t.clsName == c) = some s →
      dict_to_class env freshId data = .ok (.serializerObj s)) := by
  refine ⟨?_, ?_, ?_, ?_, ?_⟩
  · intro h
    rw [dict_to_class_str_tag env freshId data _ h]
    rfl
  · intro h
    rw [dict_to_class_str_tag env freshId data _ h]
    rfl
  · intro h
    rw [dict_to_class_str_tag env freshId data _ h]
    rfl
  · intro h
    rw [dict_to_class_str_tag env freshId data _ h]
    rfl
  · intro c s h hdd h1 h2 h3 h4 h5 hae hser
    rw [dict_to_class_str_tag env freshId data _ h]
    unfold dict_to_class_tagged serializerScan
    simp [hdd, h1, h2, h3, h4, h5, hae, hser]

/-- Witness for C7 (amended): a qualified tag yields a fresh instance
(identity 42, the allocation identity), a bare class-name tag yields the
registered singleton (identity 1). -/
theorem C7_witness :
    dict_to_class envD 42
        [("__class__", PyVal.str "Pyro4.util.JsonSerializer")]
      = .ok (.serializerObj ⟨"JsonSerializer", 42⟩)
    ∧ dict_to_class envD 42 [("__class__", PyVal.str "MarshalSerializer")]
      = .ok (.serializerObj ⟨"MarshalSerializer", 1⟩) :=
  ⟨(C7_codec_tag_names_fresh_or_singleton envD 42
      [("__class__", PyVal.str "Pyro4.util.JsonSerializer")]).2.1 rfl,
   (C7_codec_tag_names_fresh_or_singleton envD 42
      [("__class__", PyVal.str "MarshalSerializer")]).2.2.2.2
     "MarshalSerializer" ⟨"MarshalSerializer", 1⟩
     rfl rfl rfl rfl rfl rfl rfl rfl rfl⟩

/-- Counterexample to C6: a tagged mapping nested inside a list survives
`recreate_classes` unexamined — even one whose tag the gate would reject
with `SecurityError` had it been entered. -/
theorem C6_counterexample :
    recreate_classes envD 0
        (.list [.dict [("__class__", PyVal.str "foo__bar")]])
      = .ok (.plain (.list [.dict [("__class__", PyVal.str "foo__bar")]]))
    ∧ dict_to_class envD 0 [("__class__", PyVal.str "foo__bar")]
      = .error (.securityError
          "refuse to deserialize types with double underscores in their name") :=
  ⟨rfl, rfl⟩

/-- C6 (amended): the reconstruction gate is entered exactly when the
decoded value is itself a dict carrying the `"__class__"` key at top
level; untagged dicts, and containers (lists, tuples) even when tagged
mappings are nested inside them, are returned unchanged and unexamined. -/
theorem C6_gate_entered_top_level_only (env : PyEnv) (freshId : Nat) :
    (∀ d, containsKey d "__class__" = true →
        recreate_classes env freshId (.dict d)
          = (dict_to_class env freshId d).map RecOut.rebuilt)
  ∧ (∀ d, containsKey d "__class__" = false →
        recreate_classes env freshId (.dict d) = .ok (.plain (.dict d)))
  ∧ (∀ l, recreate_classes env freshId (.list l) = .ok (.plain (.list l)))
  ∧ (∀ l, recreate_classes env freshId (.tuple l)
        = .ok (.plain (.tuple l))) := by
  refine ⟨?_, ?_, ?_, ?_⟩
  · intro d hd
    simp [recreate_classes, hd]
  · intro d hd
    simp [recreate_classes, hd]
  · intro l
    rfl
  · intro l
    rfl

/-- Witness for C6 (amended): the same tagged mapping is rebuilt at top
level but passes through untouched when nested in a list. -/
theorem C6_witness :
    recreate_classes envD 5 (.dict [("__class__", PyVal.str "Pyro4.core.Daemon")])
      = .ok (.rebuilt .daemonObj)
    ∧ recreate_classes envD 5
        (.list [.dict [("__class__", PyVal.str "Pyro4.core.Daemon")]])
      = .ok (.plain
          (.list [.dict [("__class__", PyVal.str "Pyro4.core.Daemon")]])) := by
  constructor
  · rw [(C6_gate_entered_top_level_only envD 5).1
      [("__class__", PyVal.str "Pyro4.core.Daemon")] rfl]
    rfl
  · exact (C6_gate_entered_top_level_only envD 5).2.2.1
      [.dict [("__class__", PyVal.str "Pyro4.core.Daemon")]]

/-- C10: when flattening reaches a `__getstate__` hook that returns a
mapping, `class_to_dict` returns that mapping verbatim — no `"__class__"`
tag is added — and consequently, when the hook's mapping has no such key,
the far side's `recreate_classes` treats it as plain data and never
enters the reconstruction gate. -/
theorem C10_getstate_mapping_passed_untagged (reg : ConvRegistry)
    (env : PyEnv) (freshId : Nat) (obj : PyObjRepr)
    (d : List (String × PyVal))
    (hconv : reg.find? (fun p => obj.instanceOf.contains p.1) = Option.none)
    (hexc : obj.isException = false)
    (hgs : obj.getstate = some (.dict d)) :
    class_to_dict reg obj = .ok (.dict d)
    ∧ (containsKey d "__class__" = false →
        recreate_classes env freshId (.dict d) = .ok (.plain (.dict d))) := by
  constructor
  · unfold class_to_dict
    rw [hconv]
    have hg' : (nullPyroDaemon obj).getstate = some (.dict d) := by
      rw [nullPyroDaemon_getstate, hgs]
    simp only [nullPyroDaemon_isException, hexc, Bool.false_eq_true,
      if_false, hg']
  · intro hk
    simp [recreate_classes, hk]

/-- An object whose `__getstate__` returns an untagged mapping, for the
C10 witness. -/
def statefulObjC : PyObjRepr :=
  ⟨"app", "Point", [], false, [],
   some (.dict [("x", .int 1), ("y", .int 2)]),
   some [("x", .int 1), ("y", .int 2), ("color", .str "red")],
   Option.none⟩

/-- Witness for C10 at a concrete object: the hook mapping comes through
verbatim and decodes as plain data. -/
theorem C10_witness :
    class_to_dict [] statefulObjC = .ok (.dict [("x", .int 1), ("y", .int 2)])
    ∧ recreate_classes envD 0 (.dict [("x", .int 1), ("y", .int 2)])
      = .ok (.plain (.dict [("x", .int 1), ("y", .int 2)])) :=
  ⟨(C10_getstate_mapping_passed_untagged [] envD 0 statefulObjC
      [("x", .int 1), ("y", .int 2)] rfl rfl rfl).1,
   (C10_getstate_mapping_passed_untagged [] envD 0 statefulObjC
      [("x", .int 1), ("y", .int 2)] rfl rfl rfl).2 rfl⟩

theorem splitNL_no_newline (l : List Char) (h : '\n' ∉ l) :
    splitNL l = [l] := by
  induction l with
  | nil => rfl
  | cons c cs ih =>
      simp only [List.mem_cons, not_or] at h
      obtain ⟨h1, h2⟩ := h
      rw [splitNL, ih h2]
      simp [beq_eq_false_iff_ne.mpr (fun hc => h1 hc.symm)]

theorem flatMap_piece_split {α β : Type} (f : α → List β) (l : List α)
    (a : α) (h : a ∈ l) :
    ∃ s t, l.flatMap f = s ++ (f a ++ t) := by
  obtain ⟨s₁, t₁, rfl⟩ := List.append_of_mem h
  refine ⟨s₁.flatMap f, t₁.flatMap f, ?_⟩
  simp [List.flatMap_append]

/-- C9: when a non-empty remote diagnostic fragment is attached, the
formatted report is the local traceback followed by the remote section,
which begins with the "remote traceback" marker, ends with the
end-of-remote-traceback marker, and contains each fragment line (one
trailing newline stripped; lines without embedded newlines) behind the
`"\n | "` continuation prefix; with no fragment attached, only the local
traceback is returned. -/
theorem C9_remote_traceback_merge (local_tb tb : List String)
    (hne : tb ≠ []) :
    getPyroTraceback local_tb (some tb)
        = local_tb ++ formatRemoteTraceback tb
    ∧ (formatRemoteTraceback tb).head? = some remoteTbHeader
    ∧ (formatRemoteTraceback tb).getLast? = some remoteTbFooter
    ∧ (∀ line ∈ tb, ('\n' ∈ stripNL line → False) →
        listInfix ["\n | ", String.mk (stripNL line)]
          (formatRemoteTraceback tb) = true)
    ∧ getPyroTraceback local_tb Option.none = local_tb := by
  refine ⟨?_, ?_, ?_, ?_, rfl⟩
  · simp [getPyroTraceback, List.isEmpty_iff, hne]
  · simp [formatRemoteTraceback]
  · show (([remoteTbHeader] ++ tb.flatMap remoteTbLine)
        ++ [remoteTbFooter]).getLast? = some remoteTbFooter
    exact List.getLast?_concat _
  · intro line hline hnl
    apply listInfix_of_parts
    obtain ⟨s, t, hs⟩ := flatMap_piece_split remoteTbLine tb line hline
    have hpiece : remoteTbLine line
        = ["\n | ", String.mk (stripNL line)] := by
      unfold remoteTbLine
      rw [splitNL_no_newline _ hnl]
      rfl
    refine ⟨[remoteTbHeader] ++ s, t ++ [remoteTbFooter], ?_⟩
    rw [← hpiece]
    unfold formatRemoteTraceback
    rw [hs]
    simp

/-- The spec's example remote fragment, for the C9 witness. -/
def tbC : List String :=
  ["Traceback (most recent call last):",
   "ZeroDivisionError: division by zero"]

/-- Witness for C9 at the spec's example fragment. -/
theorem C9_witness :
    getPyroTraceback ["local"] (some tbC)
        = ["local"] ++ formatRemoteTraceback tbC
    ∧ (formatRemoteTraceback tbC).head? = some remoteTbHeader
    ∧ (formatRemoteTraceback tbC).getLast? = some remoteTbFooter
    ∧ listInfix ["\n | ", "ZeroDivisionError: division by zero"]
        (formatRemoteTraceback tbC) = true
    ∧ getPyroTraceback ["local"] Option.none = ["local"] := by
  have h := C9_remote_traceback_merge ["local"] tbC (by decide)
  exact ⟨h.1, h.2.1, h.2.2.1,
    h.2.2.2.1 "ZeroDivisionError: division by zero" (by decide) (by decide),
    h.2.2.2.2⟩

theorem strDrop_append (a b : String) : strDrop (a ++ b) a.data.length = b := by
  unfold strDrop
  rw [String.data_append, List.drop_left]

theorem strStarts_append_false (a b pre : String)
    (h1 : listPrefix pre.data a.data = false)
    (h2 : listPrefix a.data pre.data = false) :
    strStarts (a ++ b) pre = false := by
  unfold strStarts
  rw [String.data_append]
  exact listPrefix_append_false _ _ _ h1 h2

theorem strStarts_append_self (a b : String) : strStarts (a ++ b) a = true := by
  unfold strStarts
  rw [String.data_append]
  exact listPrefix_append_self _ _

/-- The `builtins.` branch of the dispatch chain, for an abstract
exception name resolving to a builtin exception class. -/
theorem dict_to_class_tagged_builtins (env : PyEnv) (freshId : Nat)
    (data : List (String × PyVal)) (name : String)
    (hdd : strContains ("builtins." ++ name) "__" = false)
    (hb : getattrMod env.builtinAttrs name = some .excClass) :
    dict_to_class_tagged env freshId data ("builtins." ++ name)
      = (getArgsList data).map
          (fun as => .excObj ⟨"builtins", name, as⟩) := by
  have hc1 : strStarts ("builtins." ++ name) "Pyro4.core." = false :=
    strStarts_append_false _ _ _ (by decide) (by decide)
  have hc2 : strStarts ("builtins." ++ name) "Pyro4.util." = false :=
    strStarts_append_false _ _ _ (by decide) (by decide)
  have hc3 : strStarts ("builtins." ++ name) "Pyro4.errors." = false :=
    strStarts_append_false _ _ _ (by decide) (by decide)
  have hc4 : strStarts ("builtins." ++ name) "builtins." = true :=
    strStarts_append_self _ _
  have hdrop : strDrop ("builtins." ++ name) 9 = name := by
    have h9 : ("builtins." : String).data.length = 9 := by decide
    rw [← h9]
    exact strDrop_append _ _
  unfold dict_to_class_tagged
  simp [hdd, hc1, hc2, hc3, hc4, hdrop, hb]

/-- The `Pyro4.errors.` branch of the dispatch chain, for an abstract
error name resolving to a `PyroError` subclass. -/
theorem dict_to_class_tagged_pyroerrors (env : PyEnv) (freshId : Nat)
    (data : List (String × PyVal)) (name : String)
    (hdd : strContains ("Pyro4.errors." ++ name) "__" = false)
    (hb : getattrMod env.pyroErrorAttrs name = some .excClass) :
    dict_to_class_tagged env freshId data ("Pyro4.errors." ++ name)
      = (getArgsList data).map
          (fun as => .excObj ⟨"Pyro4.errors", name, as⟩) := by
  have hc1 : strStarts ("Pyro4.errors." ++ name) "Pyro4.core." = false :=
    strStarts_append_false _ _ _ (by decide) (by decide)
  have hc2 : strStarts ("Pyro4.errors." ++ name) "Pyro4.util." = false :=
    strStarts_append_false _ _ _ (by decide) (by decide)
  have hc3 : strStarts ("Pyro4.errors." ++ name) "Pyro4.errors." = true :=
    strStarts_append_self _ _
  have hdrop : strDrop ("Pyro4.errors." ++ name) 13 = name := by
    have h13 : ("Pyro4.errors." : String).data.length = 13 := by decide
    rw [← h13]
    exact strDrop_append _ _
  unfold dict_to_class_tagged
  simp [hdd, hc1, hc2, hc3, hdrop, hb]

/-- C3: for an exception instance of a builtin exception type or a
framework error type whose qualified name has no double underscore (and
with no converter registered for it), flattening produces the tagged
`{"args", "__class__"}` mapping and reconstructing that mapping yields an
exception object of the same type with the same constructor arguments. -/
theorem C3_exception_roundtrip (reg : ConvRegistry) (env : PyEnv)
    (freshId : Nat) (obj : PyObjRepr)
    (hexc : obj.isException = true)
    (hconv : reg.find? (fun p => obj.instanceOf.contains p.1) = Option.none)
    (hdd : strContains (typeTag obj) "__" = false)
    (hmod : (obj.module = "builtins"
               ∧ getattrMod env.builtinAttrs obj.clsName = some .excClass)
          ∨ (obj.module = "Pyro4.errors"
               ∧ getattrMod env.pyroErrorAttrs obj.clsName = some .excClass)) :
    class_to_dict reg obj
        = .ok (.dict [("args", .tuple obj.args),
                      ("__class__", .str (typeTag obj))])
    ∧ dict_to_class env freshId
        [("args", .tuple obj.args), ("__class__", .str (typeTag obj))]
        = .ok (.excObj ⟨obj.module, obj.clsName, obj.args⟩) := by
  constructor
  · unfold class_to_dict
    rw [hconv]
    have h1 : (nullPyroDaemon obj).isException = true := by
      rw [nullPyroDaemon_isException, hexc]
    simp only [h1, if_true, nullPyroDaemon_args, typeTag_nullPyroDaemon]
  · have htag : lookupD [("args", PyVal.tuple obj.args),
        ("__class__", PyVal.str (typeTag obj))] "__class__"
        = some (.str (typeTag obj)) := rfl
    rw [dict_to_class_str_tag _ _ _ _ htag]
    have hargs : getArgsList [("args", PyVal.tuple obj.args),
        ("__class__", PyVal.str (typeTag obj))] = .ok obj.args := rfl
    rcases hmod with ⟨hm, hb⟩ | ⟨hm, hb⟩
    · have htt : typeTag obj = "builtins." ++ obj.clsName := by
        unfold typeTag
        rw [hm]
        rfl
      rw [htt] at hdd ⊢
      rw [hm]
      rw [dict_to_class_tagged_builtins env freshId _ obj.clsName hdd hb]
      rw [htt] at hargs
      rw [hargs]
      rfl
    · have htt : typeTag obj = "Pyro4.errors." ++ obj.clsName := by
        unfold typeTag
        rw [hm]
        rfl
      rw [htt] at hdd ⊢
      rw [hm]
      rw [dict_to_class_tagged_pyroerrors env freshId _ obj.clsName hdd hb]
      rw [htt] at hargs
      rw [hargs]
      rfl

/-- A concrete `ZeroDivisionError` instance for the C3 witness. -/
def zeroDivObjC : PyObjRepr :=
  ⟨"builtins", "ZeroDivisionError", [], true, [.str "division by zero"],
   Option.none, some [], Option.none⟩

/-- Witness for C3: flattening then reconstructing a concrete
`ZeroDivisionError` yields the same type and the same args. -/
theorem C3_witness :
    class_to_dict [] zeroDivObjC
      = .ok (.dict [("args", .tuple [.str "division by zero"]),
                    ("__class__", .str "builtins.ZeroDivisionError")])
    ∧ dict_to_class envD 0
        [("args", .tuple [.str "division by zero"]),
         ("__class__", .str "builtins.ZeroDivisionError")]
      = .ok (.excObj
          ⟨"builtins", "ZeroDivisionError", [.str "division by zero"]⟩) :=
  C3_exception_roundtrip [] envD 0 zeroDivObjC rfl rfl rfl
    (Or.inl ⟨rfl, rfl⟩)
